import Mathlib

/-!
Verification development for the gharsa tree-planting project's QR core:
the serial-number extractor (`extractSerialNumber` and its duplicates),
the scan-session camera lifecycle (`stopCamera`, `startCamera`,
`startQRDetection` decode callback) and camera enumeration
(`enumerateCameras`), shallowly embedded from the React/TypeScript source.
-/

/-- ASCII lower-casing of a character, as `String.prototype.toLowerCase`
acts on the ASCII inputs relevant here. -/
def jsCharToLower (c : Char) : Char :=
  if 'A' ≤ c ∧ c ≤ 'Z' then Char.ofNat (c.toNat + 32) else c

/-- Models `String.prototype.toLowerCase` (ASCII range). -/
def jsToLowerCase (s : String) : String :=
  String.mk (s.toList.map jsCharToLower)

def startsWithChars : List Char → List Char → Bool
  | [], _ => true
  | _ :: _, [] => false
  | p :: ps, c :: cs => p == c && startsWithChars ps cs

def occursIn (pat : List Char) : List Char → Bool
  | [] => pat.isEmpty
  | c :: cs => startsWithChars pat (c :: cs) || occursIn pat cs

/-- Models `String.prototype.includes`: `pat` occurs as a contiguous
substring of `s`. -/
def jsIncludes (s pat : String) : Bool :=
  occursIn pat.toList s.toList

def jsSplitAux (sep : Char) : List Char → List Char → List String
  | [], acc => [String.mk acc.reverse]
  | c :: cs, acc =>
    if c = sep then String.mk acc.reverse :: jsSplitAux sep cs []
    else jsSplitAux sep cs (c :: acc)

/-- Models `String.prototype.split` with a single-character separator:
splits on every occurrence of `sep`, keeping empty segments (JS
`"".split(x) = [""]`, and a leading separator yields a leading `""`). -/
def jsSplit (sep : Char) (s : String) : List String :=
  jsSplitAux sep s.toList []

/-- Characters after the last `'@'` (the whole list when no `'@'` occurs);
used to drop the userinfo part of a URL authority. -/
def afterLastAt (cs : List Char) : List Char :=
  (cs.reverse.takeWhile (fun c => c != '@')).reverse

/-- Failure of the `new URL(...)` constructor (a thrown `TypeError`). -/
inductive URLError where
  | missingScheme
  | emptyHost
deriving DecidableEq

/-- The components of a parsed WHATWG URL that the source reads
(`url.hostname` and `url.pathname`). -/
structure URLRec where
  scheme : String
  hostname : String
  pathname : String
deriving DecidableEq

def schemeChar (c : Char) : Bool :=
  c.isAlphanum || c = '+' || c = '-' || c = '.'

def validScheme (cs : List Char) : Bool :=
  match cs with
  | [] => false
  | c :: rest => c.isAlpha && rest.all schemeChar

/-- Splits off a leading `scheme:` (scheme starts with an ASCII letter,
continues with letters, digits, `+`, `-`, `.`); returns the scheme's
characters and the characters after the colon, or `none` when the input
has no valid scheme — the case in which `new URL` throws. -/
def parseScheme (cs : List Char) : Option (List Char × List Char) :=
  let before := cs.takeWhile (fun c => c != ':')
  let after := cs.dropWhile (fun c => c != ':')
  match after with
  | [] => none
  | _ :: rest => if validScheme before then some (before, rest) else none

/-- Models the WHATWG `URL` constructor as invoked by `new URL(qrCodeText)`
in the source, restricted to the `scheme://host/path` shape the claims
exercise: a missing or malformed scheme throws (`missingScheme`), an
authority form `//...` with an empty host throws (`emptyHost`), the host is
lower-cased with userinfo and port stripped, the pathname runs to the first
`?` or `#` and defaults to `"/"`, and a scheme-only (no `//`) input parses
with an empty hostname and an opaque path. Percent-encoding, dot-segment
normalisation, IPv6 hosts and special-scheme quirks are outside the inputs
any claim touches and are not modelled. -/
def parseURL (s : String) : Except URLError URLRec :=
  match parseScheme s.toList with
  | none => Except.error URLError.missingScheme
  | some (schemeCs, rest) =>
    match rest with
    | '/' :: '/' :: rest2 =>
      let auth := rest2.takeWhile (fun c => c != '/' && c != '?' && c != '#')
      let afterAuth := rest2.dropWhile (fun c => c != '/' && c != '?' && c != '#')
      let host := (afterLastAt auth).takeWhile (fun c => c != ':')
      if host.isEmpty then Except.error URLError.emptyHost
      else
        let pathCs := afterAuth.takeWhile (fun c => c != '?' && c != '#')
        Except.ok
          { scheme := String.mk (schemeCs.map jsCharToLower)
            hostname := String.mk (host.map jsCharToLower)
            pathname := if pathCs.isEmpty then "/" else String.mk pathCs }
    | _ =>
      let pathCs := rest.takeWhile (fun c => c != '?' && c != '#')
      Except.ok
        { scheme := String.mk (schemeCs.map jsCharToLower)
          hostname := ""
          pathname := String.mk pathCs }

/-- The configured expected QR domain (source line 159). -/
def expectedDomain : String := "rehla-trees-planting.com"

/-- `extractSerialNumber` from the QRScanner component (part_005 lines
149–171), with its `console.warn` observable as the second component:
`some host` exactly when the parsed hostname differs from
`expectedDomain`. The JS truthiness test `serialNumber || qrCodeText` is
modelled by the `Option`/emptiness match: `pathSegments[length - 1]` is
`undefined` on an empty array (`getLast? = none`) and falsy when empty. -/
def extractSerialNumberWithLog (qrCodeText : String) : String × Option String :=
  match parseURL qrCodeText with
  | Except.ok url =>
    let pathSegments := (jsSplit '/' url.pathname).filter (fun segment => segment.length > 0)
    let serialNumber := pathSegments.getLast?
    let warn := if url.hostname ≠ expectedDomain then some url.hostname else none
    match serialNumber with
    | some sn => (if sn.length > 0 then sn else qrCodeText, warn)
    | none => (qrCodeText, warn)
  | Except.error _ => (qrCodeText, none)

/-- The value returned by `extractSerialNumber` (QRScanner, part_005
lines 149–171). -/
def extractSerialNumber (qrCodeText : String) : String :=
  (extractSerialNumberWithLog qrCodeText).fst

/-- The duplicated `extractSerialNumber` in the QRParserTest component
(TreePlantingApp.tsx lines 51–73); its body is textually identical to the
QRScanner copy. -/
def extractSerialNumberQRParserTest (qrCodeText : String) : String :=
  match parseURL qrCodeText with
  | Except.ok url =>
    let pathSegments := (jsSplit '/' url.pathname).filter (fun segment => segment.length > 0)
    let serialNumber := pathSegments.getLast?
    match serialNumber with
    | some sn => if sn.length > 0 then sn else qrCodeText
    | none => qrCodeText
  | Except.error _ => qrCodeText

/-- The value written into the form's `qrCode` field by
`handleQRInputChange` (part_004 lines 184–197): the same URL-parsing
branch inline, `serialNumber || value` on success and `value` on a parse
exception. -/
def handleQRInputChangeValue (value : String) : String :=
  match parseURL value with
  | Except.ok url =>
    let pathSegments := (jsSplit '/' url.pathname).filter (fun segment => segment.length > 0)
    let serialNumber := pathSegments.getLast?
    match serialNumber with
    | some sn => if sn.length > 0 then sn else value
    | none => value
  | Except.error _ => value

/-- A `MediaStreamTrack`: the only observable state the source touches is
whether `track.stop()` has been called. -/
structure Track where
  stopped : Bool
deriving DecidableEq

/-- A `MediaStream` handed out by `getUserMedia`, identified for resource
accounting. -/
structure MediaStream where
  id : Nat
  tracks : List Track
deriving DecidableEq

/-- `stream.getTracks().forEach(track => track.stop())`. -/
def stopStream (s : MediaStream) : MediaStream :=
  { s with tracks := s.tracks.map (fun _ => { stopped := true }) }

/-- A stream is live while some track of it is not yet stopped. -/
def isLive (s : MediaStream) : Bool :=
  s.tracks.any (fun t => !t.stopped)

/-- The `scanState` React state of the QRScanner component (part_005
lines 180–186). -/
structure ScanState where
  isScanning : Bool
  isInitializing : Bool
  error : Option String
  hasPermission : Bool
  isTorchOn : Bool
deriving DecidableEq

/-- The error names `startCamera`'s catch block distinguishes (part_005
lines 334–344). -/
inductive CamErrorName where
  | NotAllowedError
  | NotFoundError
  | NotReadableError
  | OverconstrainedError
  | otherError
deriving DecidableEq, Fintype

/-- The user-facing message built from the caught error's name (part_005
lines 332–344): a common stem with a per-category suffix. -/
def errorMessageFor : CamErrorName → String
  | CamErrorName.NotAllowedError =>
    "Unable to access camera. Camera permission denied. Please allow camera access and try again."
  | CamErrorName.NotFoundError =>
    "Unable to access camera. No camera found. Please connect a camera and try again."
  | CamErrorName.NotReadableError =>
    "Unable to access camera. Camera is already in use by another application."
  | CamErrorName.OverconstrainedError =>
    "Unable to access camera. Camera constraints cannot be satisfied."
  | CamErrorName.otherError =>
    "Unable to access camera. Please check your camera and try again."

/-- The scan session's mutable state: the React refs and state of the
QRScanner component, plus accounting ghosts — `acquired`/`released`
count `getUserMedia` grants and full-track-stop releases, `graveyard`
collects streams whose handle `stopCamera` cleared, `discarded` collects
the permission-probe streams `enumerateCameras` obtains and drops without
keeping a handle (part_005 line 244), `emitted` records `onResult`
invocations and `errorsEmitted` records `onError` ones. -/
structure SessionState where
  streamRef : Option MediaStream
  readerRef : Bool
  isScanningRef : Bool
  scanState : ScanState
  nextStreamId : Nat
  acquired : Nat
  released : Nat
  graveyard : List MediaStream
  discarded : List MediaStream
  emitted : List String
  errorsEmitted : List String
deriving DecidableEq

/-- The component's state after mount: no stream, reader initialised, not
scanning. -/
def initState : SessionState :=
  { streamRef := none
    readerRef := true
    isScanningRef := false
    scanState :=
      { isScanning := false, isInitializing := false, error := none
        hasPermission := false, isTorchOn := false }
    nextStreamId := 0
    acquired := 0
    released := 0
    graveyard := []
    discarded := []
    emitted := []
    errorsEmitted := [] }

/-- `stopCamera` (part_005 lines 409–430): clear the scanning flag, stop
every track of a held stream and clear the handle, drop the reader, and
reset the scanning/initializing/torch state. -/
def stopCamera (st : SessionState) : SessionState :=
  match st.streamRef with
  | some s =>
    { st with
      isScanningRef := false
      streamRef := none
      graveyard := st.graveyard ++ [stopStream s]
      released := st.released + (if isLive s then 1 else 0)
      readerRef := false
      scanState :=
        { st.scanState with isScanning := false, isInitializing := false, isTorchOn := false } }
  | none =>
    { st with
      isScanningRef := false
      readerRef := false
      scanState :=
        { st.scanState with isScanning := false, isInitializing := false, isTorchOn := false } }

/-- The success path of `startCamera` (part_005 lines 291–327): any
existing stream's tracks are stopped first (the ref is not cleared there),
a fresh live stream is acquired and installed, the scan state is marked
scanning with permission granted, and `startQRDetection` raises the
scanning flag. `extraTracks` picks how many tracks beyond the first the
granted stream carries. -/
def acquireStream (st : SessionState) (extraTracks : Nat) : SessionState :=
  let st1 :=
    match st.streamRef with
    | some s =>
      { st with
        streamRef := some (stopStream s)
        released := st.released + (if isLive s then 1 else 0) }
    | none => st
  let fresh : MediaStream :=
    { id := st1.nextStreamId, tracks := List.replicate (extraTracks + 1) { stopped := false } }
  { st1 with
    streamRef := some fresh
    nextStreamId := st1.nextStreamId + 1
    acquired := st1.acquired + 1
    isScanningRef := true
    scanState :=
      { st1.scanState with
        isInitializing := false, isScanning := true, hasPermission := true, error := none } }

/-- The failure path of `startCamera` (part_005 lines 291–354): the
existing stream's tracks were already stopped before `getUserMedia`
threw, the categorized message is stored in the error state and passed to
`onError`, and no retry or new acquisition happens. -/
def startCameraFail (st : SessionState) (name : CamErrorName) : SessionState :=
  let st1 :=
    match st.streamRef with
    | some s =>
      { st with
        streamRef := some (stopStream s)
        released := st.released + (if isLive s then 1 else 0) }
    | none => st
  { st1 with
    scanState :=
      { st1.scanState with
        isInitializing := false, error := some (errorMessageFor name), hasPermission := false }
    errorsEmitted := st1.errorsEmitted ++ [errorMessageFor name] }

/-- The ZXing decode callback (part_005 lines 368–395): a successful
decode is delivered only when the scanning flag is still set; the flag is
cleared, the scan state updated, and `onResult` is invoked with the
extracted serial. An unsuccessful frame (`none`) is a no-op. -/
def onDecode (st : SessionState) (r : Option String) : SessionState :=
  match r with
  | some rawText =>
    if st.isScanningRef then
      { st with
        isScanningRef := false
        scanState := { st.scanState with isScanning := false }
        emitted := st.emitted ++ [extractSerialNumber rawText] }
    else st
  | none => st

/-- The permission probe of `enumerateCameras` (part_005 line 244):
`await navigator.mediaDevices.getUserMedia({ video: true })` acquires a
stream solely to unlock device labels, and the returned stream is
discarded — no handle is kept and its tracks are never stopped by any
later code, so it stays live. It runs on every dialog open (the effect at
part_005 lines 471–481 calls `enumerateCameras` whenever `isOpen` turns
true). -/
def enumerateAcquire (st : SessionState) (extraTracks : Nat) : SessionState :=
  let fresh : MediaStream :=
    { id := st.nextStreamId, tracks := List.replicate (extraTracks + 1) { stopped := false } }
  { st with
    nextStreamId := st.nextStreamId + 1
    acquired := st.acquired + 1
    discarded := st.discarded ++ [fresh] }

/-- The externally triggered events of a scan session. `enumerate` is the
dialog-open device enumeration with its permission-probe acquisition,
`stop` is the explicit `stopCamera` call (stop button, dialog close,
camera switch) and `unmount` the component-teardown cleanup effect
(part_005 lines 484–488), which also calls `stopCamera`. The stream that
ZXing's `decodeFromVideoDevice` manages internally is not modelled: the
decoder is the external frame-fed collaborator of spec section 6. -/
inductive Event where
  | enumerate (extraTracks : Nat)
  | startSuccess (extraTracks : Nat)
  | startFailure (name : CamErrorName)
  | decode (r : Option String)
  | stop
  | unmount

def step (st : SessionState) : Event → SessionState
  | Event.enumerate n => enumerateAcquire st n
  | Event.startSuccess n => acquireStream st n
  | Event.startFailure name => startCameraFail st name
  | Event.decode r => onDecode st r
  | Event.stop => stopCamera st
  | Event.unmount => stopCamera st

/-- States of the session reachable from mount by a sequence of events. -/
def reach (evs : List Event) : SessionState :=
  evs.foldl step initState

/-- Number of live camera streams the session currently holds. -/
def heldLive (st : SessionState) : Nat :=
  match st.streamRef with
  | some s => if isLive s then 1 else 0
  | none => 0

/-- Number of still-live streams among the permission-probe streams the
session discarded without release. -/
def leakedLive (st : SessionState) : Nat :=
  (st.discarded.filter (fun s => isLive s)).length

/-- Running a burst of decode callbacks from a given state. -/
def runDecodes (st : SessionState) (rs : List (Option String)) : SessionState :=
  rs.foldl (fun s r => step s (Event.decode r)) st

/-- The session invariant: acquisitions equal releases plus the live
stream currently held plus the live discarded permission-probe streams —
the last summand is the resource leak — and every stream in the graveyard
has all tracks stopped. -/
def invP (st : SessionState) : Prop :=
  st.acquired = st.released + heldLive st + leakedLive st
  ∧ ∀ s ∈ st.graveyard, ∀ t ∈ s.tracks, t.stopped = true

/-- `MediaDeviceInfo.kind` values. -/
inductive MediaDeviceKind where
  | videoinput
  | audioinput
  | audiooutput
deriving DecidableEq

/-- A device as reported by `navigator.mediaDevices.enumerateDevices`. -/
structure MediaDeviceInfo where
  deviceId : String
  label : String
  kind : MediaDeviceKind
deriving DecidableEq

/-- The `CameraDevice` record built per device (part_005 lines 173–178
and 249–256). -/
structure CameraDevice where
  deviceId : String
  label : String
  kind : MediaDeviceKind
  isBackCamera : Bool
deriving DecidableEq

/-- The mapping step of `enumerateCameras` (part_005 lines 249–256): the
label falls back to a `Camera` prefix of the id when empty (JS `||`), and
the rear-facing classification is derived from the raw label. -/
def mkCameraDevice (d : MediaDeviceInfo) : CameraDevice :=
  { deviceId := d.deviceId
    label := if d.label.length > 0 then d.label
             else "Camera " ++ String.mk (d.deviceId.toList.take 8)
    kind := d.kind
    isBackCamera :=
      jsIncludes (jsToLowerCase d.label) "back"
      || jsIncludes (jsToLowerCase d.label) "rear"
      || jsIncludes (jsToLowerCase d.label) "environment" }

/-- The sort comparator of `enumerateCameras` (part_005 lines 257–262):
back cameras first. -/
def cameraCompare (a b : CameraDevice) : Int :=
  if a.isBackCamera && !b.isBackCamera then -1
  else if !a.isBackCamera && b.isBackCamera then 1
  else 0

def insertStable (cmp : CameraDevice → CameraDevice → Int) (x : CameraDevice) :
    List CameraDevice → List CameraDevice
  | [] => [x]
  | y :: ys => if cmp x y ≤ 0 then x :: y :: ys else y :: insertStable cmp x ys

/-- Models `Array.prototype.sort` with the given comparator. ES2019
requires the sort to be stable, and `cameraCompare` is consistent (it
compares only the boolean rear-facing key), so the result is the unique
stable sort, computed here by stable insertion. -/
def jsStableSort (cmp : CameraDevice → CameraDevice → Int) :
    List CameraDevice → List CameraDevice
  | [] => []
  | x :: xs => insertStable cmp x (jsStableSort cmp xs)

/-- `enumerateCameras` (part_005 lines 241–283), its pure core: keeps the
video inputs, builds `CameraDevice`s, sorts back cameras first, and
auto-selects the first back camera when one exists, else the first device
when any exists. Returns the device list and the auto-selected id. -/
def enumerateCameras (devices : List MediaDeviceInfo) :
    List CameraDevice × Option String :=
  let videoDevices :=
    jsStableSort cameraCompare
      ((devices.filter (fun d => d.kind = MediaDeviceKind.videoinput)).map mkCameraDevice)
  let selected :=
    match videoDevices.find? (fun camera => camera.isBackCamera) with
    | some backCamera => some backCamera.deviceId
    | none => videoDevices.head?.map (fun c => c.deviceId)
  (videoDevices, selected)

/-- Ordering relation certified for the sorted camera list: whenever `a`
precedes `b` and `b` is rear-facing, `a` is rear-facing too — i.e. every
rear-facing device comes before every non-rear-facing one. -/
def rearFirst (a b : CameraDevice) : Prop :=
  b.isBackCamera = true → a.isBackCamera = true

theorem getLast?_mem_of_eq_some {α : Type} : ∀ {l : List α} {a : α}, l.getLast? = some a → a ∈ l
  | [], _, h => by simp at h
  | [x], a, h => by
    simp [List.getLast?] at h
    simp [h]
  | x :: y :: t, a, h => by
    rw [List.getLast?_cons_cons] at h
    exact List.mem_cons_of_mem x (getLast?_mem_of_eq_some h)

theorem filtered_getLast?_pos {l : List String} {sn : String}
    (h : (l.filter (fun segment => segment.length > 0)).getLast? = some sn) :
    sn.length > 0 := by
  have hmem := getLast?_mem_of_eq_some h
  have := List.mem_filter.mp hmem
  exact of_decide_eq_true this.2

/-- Helper: on a successful parse with a last non-empty segment, the
extractor returns that segment. -/
theorem extract_ok_last {s : String} {u : URLRec} {sn : String}
    (hp : parseURL s = Except.ok u)
    (hl : ((jsSplit '/' u.pathname).filter (fun segment => segment.length > 0)).getLast? = some sn) :
    extractSerialNumber s = sn := by
  have hpos := filtered_getLast?_pos hl
  unfold extractSerialNumber extractSerialNumberWithLog
  rw [hp]
  simp only [hl]
  simp [hpos]

/-- Helper: on a successful parse with no non-empty segment, the extractor
falls back to the original payload. -/
theorem extract_ok_fallback {s : String} {u : URLRec}
    (hp : parseURL s = Except.ok u)
    (hl : ((jsSplit '/' u.pathname).filter (fun segment => segment.length > 0)).getLast? = none) :
    extractSerialNumber s = s := by
  unfold extractSerialNumber extractSerialNumberWithLog
  rw [hp]
  simp only [hl]

/-- Helper: on a parse failure, the extractor is the identity. -/
theorem extract_error_id {s : String} {e : URLError}
    (hp : parseURL s = Except.error e) :
    extractSerialNumber s = s := by
  unfold extractSerialNumber extractSerialNumberWithLog
  rw [hp]

/-- C1: for every input that parses as a URL and whose path has at least
one non-empty segment (splitting the path on `'/'` and discarding empty
segments), `extractSerialNumber` returns the last non-empty segment. -/
theorem extractSerialNumber_last_segment (s : String) (u : URLRec) (sn : String)
    (hp : parseURL s = Except.ok u)
    (hl : ((jsSplit '/' u.pathname).filter (fun segment => segment.length > 0)).getLast? = some sn) :
    extractSerialNumber s = sn :=
  extract_ok_last hp hl

/-- Witness for C1 at the multi-level path of the claim: `.../a/b/456`
yields `456`. -/
theorem extractSerialNumber_last_segment_witness :
    extractSerialNumber "https://rehla-trees-planting.com/a/b/456" = "456" :=
  extractSerialNumber_last_segment "https://rehla-trees-planting.com/a/b/456"
    { scheme := "https", hostname := "rehla-trees-planting.com", pathname := "/a/b/456" }
    "456" (by rfl) (by rfl)

/-- Helper: whatever branch is taken, the extractor returns either the
original payload or a non-empty path segment. -/
theorem extract_value_cases (s : String) :
    extractSerialNumber s = s ∨ 0 < (extractSerialNumber s).length := by
  cases hp : parseURL s with
  | error e => exact Or.inl (extract_error_id hp)
  | ok u =>
    cases hl : ((jsSplit '/' u.pathname).filter (fun segment => segment.length > 0)).getLast? with
    | none => exact Or.inl (extract_ok_fallback hp hl)
    | some sn =>
      right
      rw [extract_ok_last hp hl]
      exact filtered_getLast?_pos hl

/-- C2: on a parsed URL with no non-empty path segment the extractor
returns the original payload unchanged, and consequently the extractor
never maps a non-empty input to the empty string. -/
theorem extractSerialNumber_fallback_nonempty :
    (∀ (s : String) (u : URLRec), parseURL s = Except.ok u →
      ((jsSplit '/' u.pathname).filter (fun segment => segment.length > 0)).getLast? = none →
      extractSerialNumber s = s)
    ∧ (∀ s : String, s ≠ "" → extractSerialNumber s ≠ "") := by
  constructor
  · intro s u hp hl
    exact extract_ok_fallback hp hl
  · intro s hs
    rcases extract_value_cases s with h | h
    · rw [h]; exact hs
    · intro hcon
      rw [hcon] at h
      simp at h

/-- Witness for C2: `https://host/` has no path segment and is returned
unchanged, and a non-empty input yields a non-empty output. -/
theorem extractSerialNumber_fallback_nonempty_witness :
    extractSerialNumber "https://host/" = "https://host/"
    ∧ extractSerialNumber "x" ≠ "" :=
  ⟨extractSerialNumber_fallback_nonempty.1 "https://host/"
      { scheme := "https", hostname := "host", pathname := "/" } (by rfl) (by rfl),
    extractSerialNumber_fallback_nonempty.2 "x" (by decide)⟩

/-- C3: on any input the URL constructor rejects (it throws), the
extractor is the identity. -/
theorem extractSerialNumber_not_url_id (s : String) (e : URLError)
    (hp : parseURL s = Except.error e) :
    extractSerialNumber s = s :=
  extract_error_id hp

/-- Witness for C3 at the claim's inputs: the empty string, `SOME-CODE`
and `12345` all fail to parse and are returned unchanged. -/
theorem extractSerialNumber_not_url_id_witness :
    extractSerialNumber "" = ""
    ∧ extractSerialNumber "SOME-CODE" = "SOME-CODE"
    ∧ extractSerialNumber "12345" = "12345" :=
  ⟨extractSerialNumber_not_url_id "" URLError.missingScheme (by rfl),
    extractSerialNumber_not_url_id "SOME-CODE" URLError.missingScheme (by rfl),
    extractSerialNumber_not_url_id "12345" URLError.missingScheme (by rfl)⟩

/-- C4: the extractor is total — every input is mapped to some result
string — and every parse exception is swallowed internally and handled as
the not-a-URL case, returning the input unchanged. -/
theorem extractSerialNumber_total_catch (s : String) :
    (∃ r : String, extractSerialNumber s = r)
    ∧ (∀ e : URLError, parseURL s = Except.error e → extractSerialNumber s = s) := by
  refine ⟨⟨extractSerialNumber s, rfl⟩, ?_⟩
  intro e hp
  exact extract_error_id hp

/-- Witness for C4 at `"not-a-url"`: the parse throws and the extractor
still returns the input. -/
theorem extractSerialNumber_total_catch_witness :
    extractSerialNumber "not-a-url" = "not-a-url" :=
  (extractSerialNumber_total_catch "not-a-url").2 URLError.missingScheme (by rfl)

/-- C7: for every input that parses as a URL, the unexpected-domain
advisory carries the offending host and is emitted exactly when the
hostname differs from `expectedDomain`; the mismatch never alters the
returned value, which is still the last non-empty path segment whenever
one exists. -/
theorem domain_mismatch_advisory (s : String) (u : URLRec)
    (hp : parseURL s = Except.ok u) :
    (extractSerialNumberWithLog s).snd
        = (if u.hostname ≠ expectedDomain then some u.hostname else none)
    ∧ (∀ sn : String,
        ((jsSplit '/' u.pathname).filter (fun segment => segment.length > 0)).getLast? = some sn →
        extractSerialNumber s = sn) := by
  constructor
  · unfold extractSerialNumberWithLog
    rw [hp]
    cases hl : ((jsSplit '/' u.pathname).filter (fun segment => segment.length > 0)).getLast? <;>
      simp [hl]
  · intro sn hl
    exact extract_ok_last hp hl

/-- Witness for C7 at the claim's example: `https://example.com/other123`
still yields `other123` and the advisory carries `example.com`. -/
theorem domain_mismatch_advisory_witness :
    (extractSerialNumberWithLog "https://example.com/other123").snd = some "example.com"
    ∧ extractSerialNumber "https://example.com/other123" = "other123" :=
  ⟨by
      rw [(domain_mismatch_advisory "https://example.com/other123"
        { scheme := "https", hostname := "example.com", pathname := "/other123" } (by rfl)).1]
      rfl,
    (domain_mismatch_advisory "https://example.com/other123"
        { scheme := "https", hostname := "example.com", pathname := "/other123" } (by rfl)).2
      "other123" (by rfl)⟩

/-- C10: the three copies of the serial-extraction logic — QRScanner's
`extractSerialNumber`, QRParserTest's `extractSerialNumber`, and the
inline URL-parsing branch of `handleQRInputChange` — are extensionally
equal. -/
theorem extractors_extensionally_equal (s : String) :
    extractSerialNumber s = extractSerialNumberQRParserTest s
    ∧ extractSerialNumber s = handleQRInputChangeValue s := by
  constructor
  · unfold extractSerialNumber extractSerialNumberWithLog extractSerialNumberQRParserTest
    cases hp : parseURL s with
    | error e => rfl
    | ok u =>
      cases hl : ((jsSplit '/' u.pathname).filter (fun segment => segment.length > 0)).getLast? <;>
        simp only [hl]
  · unfold extractSerialNumber extractSerialNumberWithLog handleQRInputChangeValue
    cases hp : parseURL s with
    | error e => rfl
    | ok u =>
      cases hl : ((jsSplit '/' u.pathname).filter (fun segment => segment.length > 0)).getLast? <;>
        simp only [hl]

theorem isLive_stopStream (s : MediaStream) : isLive (stopStream s) = false := by
  simp [isLive, stopStream]

theorem tracks_stopStream (s : MediaStream) :
    ∀ t ∈ (stopStream s).tracks, t.stopped = true := by
  intro t ht
  simp [stopStream] at ht
  obtain ⟨x, -, rfl⟩ := ht
  rfl

theorem isLive_fresh (i n : Nat) :
    isLive { id := i, tracks := List.replicate (n + 1) { stopped := false } } = true := by
  simp [isLive, List.replicate_succ]

theorem stopCamera_acquired (st : SessionState) : (stopCamera st).acquired = st.acquired := by
  cases hs : st.streamRef <;> simp [stopCamera, hs]

theorem stopCamera_released (st : SessionState) :
    (stopCamera st).released = st.released + heldLive st := by
  cases hs : st.streamRef <;> simp [stopCamera, heldLive, hs]

theorem stopCamera_heldLive (st : SessionState) : heldLive (stopCamera st) = 0 := by
  cases hs : st.streamRef <;> simp [stopCamera, heldLive, hs]

theorem stopCamera_streamRef (st : SessionState) : (stopCamera st).streamRef = none := by
  cases hs : st.streamRef <;> simp [stopCamera, hs]

theorem stopCamera_flags (st : SessionState) :
    (stopCamera st).isScanningRef = false
    ∧ (stopCamera st).readerRef = false
    ∧ (stopCamera st).scanState.isScanning = false
    ∧ (stopCamera st).scanState.isInitializing = false
    ∧ (stopCamera st).scanState.isTorchOn = false := by
  cases hs : st.streamRef <;> simp [stopCamera, hs]

theorem stopCamera_graveyard (st : SessionState) :
    (stopCamera st).graveyard
      = st.graveyard ++ (match st.streamRef with | some s => [stopStream s] | none => []) := by
  cases hs : st.streamRef <;> simp [stopCamera, hs]

theorem stopCamera_idem (st : SessionState) : stopCamera (stopCamera st) = stopCamera st := by
  cases hs : st.streamRef <;> simp [stopCamera, hs]

theorem acquireStream_acquired (st : SessionState) (n : Nat) :
    (acquireStream st n).acquired = st.acquired + 1 := by
  cases hs : st.streamRef <;> simp [acquireStream, hs]

theorem acquireStream_released (st : SessionState) (n : Nat) :
    (acquireStream st n).released = st.released + heldLive st := by
  cases hs : st.streamRef <;> simp [acquireStream, heldLive, hs]

theorem acquireStream_heldLive (st : SessionState) (n : Nat) :
    heldLive (acquireStream st n) = 1 := by
  cases hs : st.streamRef <;> simp [acquireStream, heldLive, hs, isLive_fresh]

theorem acquireStream_graveyard (st : SessionState) (n : Nat) :
    (acquireStream st n).graveyard = st.graveyard := by
  cases hs : st.streamRef <;> simp [acquireStream, hs]

theorem startCameraFail_acquired (st : SessionState) (name : CamErrorName) :
    (startCameraFail st name).acquired = st.acquired := by
  cases hs : st.streamRef <;> simp [startCameraFail, hs]

theorem startCameraFail_released (st : SessionState) (name : CamErrorName) :
    (startCameraFail st name).released = st.released + heldLive st := by
  cases hs : st.streamRef <;> simp [startCameraFail, heldLive, hs]

theorem startCameraFail_heldLive (st : SessionState) (name : CamErrorName) :
    heldLive (startCameraFail st name) = 0 := by
  cases hs : st.streamRef <;> simp [startCameraFail, heldLive, hs, isLive_stopStream]

theorem startCameraFail_graveyard (st : SessionState) (name : CamErrorName) :
    (startCameraFail st name).graveyard = st.graveyard := by
  cases hs : st.streamRef <;> simp [startCameraFail, hs]

theorem onDecode_preserves (st : SessionState) (r : Option String) :
    (onDecode st r).acquired = st.acquired
    ∧ (onDecode st r).released = st.released
    ∧ (onDecode st r).streamRef = st.streamRef
    ∧ (onDecode st r).graveyard = st.graveyard := by
  cases r with
  | none => exact ⟨rfl, rfl, rfl, rfl⟩
  | some t => by_cases hf : st.isScanningRef <;> simp [onDecode, hf]

theorem onDecode_heldLive (st : SessionState) (r : Option String) :
    heldLive (onDecode st r) = heldLive st := by
  unfold heldLive
  rw [(onDecode_preserves st r).2.2.1]

theorem stopCamera_leakedLive (st : SessionState) :
    leakedLive (stopCamera st) = leakedLive st := by
  unfold leakedLive
  cases hs : st.streamRef <;> simp [stopCamera, hs]

theorem acquireStream_leakedLive (st : SessionState) (n : Nat) :
    leakedLive (acquireStream st n) = leakedLive st := by
  unfold leakedLive
  cases hs : st.streamRef <;> simp [acquireStream, hs]

theorem startCameraFail_leakedLive (st : SessionState) (name : CamErrorName) :
    leakedLive (startCameraFail st name) = leakedLive st := by
  unfold leakedLive
  cases hs : st.streamRef <;> simp [startCameraFail, hs]

theorem onDecode_leakedLive (st : SessionState) (r : Option String) :
    leakedLive (onDecode st r) = leakedLive st := by
  unfold leakedLive
  cases r with
  | none => rfl
  | some t => by_cases hf : st.isScanningRef <;> simp [onDecode, hf]

theorem enumerateAcquire_acquired (st : SessionState) (n : Nat) :
    (enumerateAcquire st n).acquired = st.acquired + 1 := rfl

theorem enumerateAcquire_released (st : SessionState) (n : Nat) :
    (enumerateAcquire st n).released = st.released := rfl

theorem enumerateAcquire_heldLive (st : SessionState) (n : Nat) :
    heldLive (enumerateAcquire st n) = heldLive st := rfl

theorem enumerateAcquire_graveyard (st : SessionState) (n : Nat) :
    (enumerateAcquire st n).graveyard = st.graveyard := rfl

theorem enumerateAcquire_leakedLive (st : SessionState) (n : Nat) :
    leakedLive (enumerateAcquire st n) = leakedLive st + 1 := by
  unfold leakedLive enumerateAcquire
  simp [List.filter_append, isLive_fresh]

theorem invP_step (st : SessionState) (e : Event) (h : invP st) : invP (step st e) := by
  obtain ⟨h1, h2⟩ := h
  cases e with
  | enumerate n =>
    refine ⟨?_, ?_⟩
    · rw [show step st (Event.enumerate n) = enumerateAcquire st n from rfl,
        enumerateAcquire_acquired, enumerateAcquire_released, enumerateAcquire_heldLive,
        enumerateAcquire_leakedLive, h1]
      omega
    · rw [show step st (Event.enumerate n) = enumerateAcquire st n from rfl,
        enumerateAcquire_graveyard]
      exact h2
  | startSuccess n =>
    refine ⟨?_, ?_⟩
    · rw [show step st (Event.startSuccess n) = acquireStream st n from rfl,
        acquireStream_acquired, acquireStream_released, acquireStream_heldLive,
        acquireStream_leakedLive, h1]
      omega
    · rw [show step st (Event.startSuccess n) = acquireStream st n from rfl,
        acquireStream_graveyard]
      exact h2
  | startFailure name =>
    refine ⟨?_, ?_⟩
    · rw [show step st (Event.startFailure name) = startCameraFail st name from rfl,
        startCameraFail_acquired, startCameraFail_released, startCameraFail_heldLive,
        startCameraFail_leakedLive, h1]
      omega
    · rw [show step st (Event.startFailure name) = startCameraFail st name from rfl,
        startCameraFail_graveyard]
      exact h2
  | decode r =>
    refine ⟨?_, ?_⟩
    · rw [show step st (Event.decode r) = onDecode st r from rfl,
        (onDecode_preserves st r).1, (onDecode_preserves st r).2.1, onDecode_heldLive,
        onDecode_leakedLive]
      exact h1
    · rw [show step st (Event.decode r) = onDecode st r from rfl,
        (onDecode_preserves st r).2.2.2]
      exact h2
  | stop =>
    refine ⟨?_, ?_⟩
    · rw [show step st Event.stop = stopCamera st from rfl,
        stopCamera_acquired, stopCamera_released, stopCamera_heldLive,
        stopCamera_leakedLive, h1]
      omega
    · rw [show step st Event.stop = stopCamera st from rfl, stopCamera_graveyard]
      intro s hs
      rcases List.mem_append.mp hs with hmem | hmem
      · exact h2 s hmem
      · cases href : st.streamRef with
        | none => rw [href] at hmem; simp at hmem
        | some s0 =>
          rw [href] at hmem
          simp at hmem
          rw [hmem]
          exact tracks_stopStream s0
  | unmount =>
    refine ⟨?_, ?_⟩
    · rw [show step st Event.unmount = stopCamera st from rfl,
        stopCamera_acquired, stopCamera_released, stopCamera_heldLive,
        stopCamera_leakedLive, h1]
      omega
    · rw [show step st Event.unmount = stopCamera st from rfl, stopCamera_graveyard]
      intro s hs
      rcases List.mem_append.mp hs with hmem | hmem
      · exact h2 s hmem
      · cases href : st.streamRef with
        | none => rw [href] at hmem; simp at hmem
        | some s0 =>
          rw [href] at hmem
          simp at hmem
          rw [hmem]
          exact tracks_stopStream s0

theorem invP_foldl : ∀ (evs : List Event) (st : SessionState), invP st → invP (evs.foldl step st)
  | [], _, h => h
  | e :: evs, st, h => invP_foldl evs (step st e) (invP_step st e h)

theorem invP_reach (evs : List Event) : invP (reach evs) :=
  invP_foldl evs initState ⟨rfl, by simp [initState]⟩

/-- C5 (code bug): the guaranteed-release/parity claim fails on the code.
Failing run: open the scanner dialog — `enumerateCameras`' permission
probe `getUserMedia({ video: true })` (part_005 line 244) acquires a
stream that is discarded without its tracks ever being stopped — then
start the camera and call `stopCamera`. Afterwards the session holds no
stream and `stopCamera` did release the held stream, yet two streams were
acquired and only one released, and the discarded permission-probe stream
is still live: the acquire/release count parity the claim demands is
broken by a leaked camera handle. -/
theorem stopCamera_leak_on_enumerate :
    (reach [Event.enumerate 0, Event.startSuccess 0, Event.stop]).acquired = 2
    ∧ (reach [Event.enumerate 0, Event.startSuccess 0, Event.stop]).released = 1
    ∧ (reach [Event.enumerate 0, Event.startSuccess 0, Event.stop]).streamRef = none
    ∧ (reach [Event.enumerate 0, Event.startSuccess 0, Event.stop]).discarded
        = [{ id := 0, tracks := [{ stopped := false }] }]
    ∧ isLive { id := 0, tracks := [{ stopped := false }] } = true :=
  ⟨rfl, rfl, rfl, rfl, rfl⟩

theorem onDecode_flag_false (st : SessionState) (r : Option String)
    (h : st.isScanningRef = false) : onDecode st r = st := by
  cases r with
  | none => rfl
  | some t => simp [onDecode, h]

theorem runDecodes_flag_false :
    ∀ (rs : List (Option String)) (st : SessionState),
      st.isScanningRef = false → runDecodes st rs = st
  | [], _, _ => rfl
  | r :: rs, st, h => by
    have hstep : step st (Event.decode r) = st := onDecode_flag_false st r h
    show runDecodes (step st (Event.decode r)) rs = st
    rw [hstep]
    exact runDecodes_flag_false rs st h

theorem runDecodes_emitted_le :
    ∀ (rs : List (Option String)) (st : SessionState),
      (runDecodes st rs).emitted.length
        ≤ st.emitted.length + (if st.isScanningRef then 1 else 0)
  | [], st => by simp [runDecodes]
  | r :: rs, st => by
    show (runDecodes (step st (Event.decode r)) rs).emitted.length ≤ _
    cases hf : st.isScanningRef with
    | false =>
      rw [show step st (Event.decode r) = st from onDecode_flag_false st r hf,
        runDecodes_flag_false rs st hf]
      simp
    | true =>
      cases r with
      | none =>
        have := runDecodes_emitted_le rs st
        rw [hf] at this
        simpa [step, onDecode] using this
      | some t =>
        have hstep : step st (Event.decode (some t))
            = { st with
                isScanningRef := false
                scanState := { st.scanState with isScanning := false }
                emitted := st.emitted ++ [extractSerialNumber t] } := by
          simp [step, onDecode, hf]
        have := runDecodes_emitted_le rs (step st (Event.decode (some t)))
        rw [hstep] at this ⊢
        simpa using this

/-- C6: within one session the decode callback delivers at most one
result — any burst of decode events grows the emitted `onResult` calls by
at most one; with the already-resolved flag cleared every decode event is
a no-op; and a successful decode with the flag set emits exactly the
serial produced by `extractSerialNumber` and clears the flag. -/
theorem onResult_at_most_once (st : SessionState) (rs : List (Option String)) :
    (runDecodes st rs).emitted.length ≤ st.emitted.length + 1
    ∧ (st.isScanningRef = false → runDecodes st rs = st)
    ∧ (∀ rawText : String, st.isScanningRef = true →
        (step st (Event.decode (some rawText))).emitted
            = st.emitted ++ [extractSerialNumber rawText]
        ∧ (step st (Event.decode (some rawText))).isScanningRef = false) := by
  refine ⟨?_, runDecodes_flag_false rs st, ?_⟩
  · have := runDecodes_emitted_le rs st
    cases hf : st.isScanningRef <;> rw [hf] at this <;> simp at this <;> omega
  · intro rawText hf
    constructor <;> simp [step, onDecode, hf]

/-- Witness for C6: with the flag down decodes are no-ops; a first decode
in a fresh scanning session emits the extracted serial; two decodes emit
at most one result. -/
theorem onResult_at_most_once_witness :
    runDecodes initState [some "X"] = initState
    ∧ (step (acquireStream initState 0)
          (Event.decode (some "https://rehla-trees-planting.com/00001"))).emitted
        = (acquireStream initState 0).emitted
            ++ [extractSerialNumber "https://rehla-trees-planting.com/00001"]
    ∧ (runDecodes (acquireStream initState 0) [some "A", some "B"]).emitted.length
        ≤ (acquireStream initState 0).emitted.length + 1 :=
  ⟨(onResult_at_most_once initState [some "X"]).2.1 (by rfl),
    ((onResult_at_most_once (acquireStream initState 0) []).2.2
      "https://rehla-trees-planting.com/00001" (by rfl)).1,
    (onResult_at_most_once (acquireStream initState 0) [some "A", some "B"]).1⟩

/-- C8: the four camera-acquisition failure kinds produce pairwise
distinct messages (the message map is injective), each failure surfaces
its categorized message both in the error state and through `onError`,
and no automatic retry happens — the acquisition count is unchanged and
the session is no longer initializing. -/
theorem startCamera_failure_categories :
    (∀ a b : CamErrorName, errorMessageFor a = errorMessageFor b → a = b)
    ∧ (∀ (st : SessionState) (name : CamErrorName),
        (step st (Event.startFailure name)).scanState.error
            = some (errorMessageFor name)
        ∧ (step st (Event.startFailure name)).errorsEmitted
            = st.errorsEmitted ++ [errorMessageFor name]
        ∧ (step st (Event.startFailure name)).acquired = st.acquired
        ∧ (step st (Event.startFailure name)).scanState.isInitializing = false) := by
  constructor
  · decide
  · intro st name
    refine ⟨?_, ?_, startCameraFail_acquired st name, ?_⟩ <;>
      cases hs : st.streamRef <;> simp [step, startCameraFail, hs]

/-- Witness for C8: the injectivity applied at a concrete pair, and the
failure step evaluated on the initial state for `NotFoundError`. -/
theorem startCamera_failure_categories_witness :
    CamErrorName.NotAllowedError = CamErrorName.NotAllowedError
    ∧ (step initState (Event.startFailure CamErrorName.NotFoundError)).scanState.error
        = some (errorMessageFor CamErrorName.NotFoundError)
    ∧ (step initState (Event.startFailure CamErrorName.NotFoundError)).acquired
        = initState.acquired :=
  ⟨startCamera_failure_categories.1 CamErrorName.NotAllowedError
      CamErrorName.NotAllowedError (by rfl),
    (startCamera_failure_categories.2 initState CamErrorName.NotFoundError).1,
    (startCamera_failure_categories.2 initState CamErrorName.NotFoundError).2.2.1⟩

theorem mem_insertStable (cmp : CameraDevice → CameraDevice → Int)
    (x a : CameraDevice) :
    ∀ ys : List CameraDevice, a ∈ insertStable cmp x ys ↔ a = x ∨ a ∈ ys
  | [] => by simp [insertStable]
  | y :: ys => by
    by_cases h : cmp x y ≤ 0
    · simp [insertStable, h]
    · simp [insertStable, h, mem_insertStable cmp x a ys]
      tauto

theorem perm_insertStable (cmp : CameraDevice → CameraDevice → Int)
    (x : CameraDevice) :
    ∀ ys : List CameraDevice, (insertStable cmp x ys).Perm (x :: ys)
  | [] => List.Perm.refl _
  | y :: ys => by
    by_cases h : cmp x y ≤ 0
    · simp [insertStable, h]
    · rw [insertStable, if_neg h]
      exact ((perm_insertStable cmp x ys).cons y).trans (List.Perm.swap x y ys)

theorem perm_jsStableSort (cmp : CameraDevice → CameraDevice → Int) :
    ∀ l : List CameraDevice, (jsStableSort cmp l).Perm l
  | [] => List.Perm.refl _
  | x :: xs =>
    List.Perm.trans (perm_insertStable cmp x (jsStableSort cmp xs))
      (List.Perm.cons x (perm_jsStableSort cmp xs))

theorem cameraCompare_le_zero (x y : CameraDevice) :
    cameraCompare x y ≤ 0 ↔ (x.isBackCamera = true ∨ y.isBackCamera = false) := by
  cases hx : x.isBackCamera <;> cases hy : y.isBackCamera <;>
    simp [cameraCompare, hx, hy]

theorem insert_pairwise_rearFirst (x : CameraDevice) :
    ∀ ys : List CameraDevice, List.Pairwise rearFirst ys →
      List.Pairwise rearFirst (insertStable cameraCompare x ys)
  | [], _ => List.Pairwise.cons (by intro b hb; simp at hb) List.Pairwise.nil
  | y :: ys, hp => by
    obtain ⟨hy, hys⟩ := List.pairwise_cons.mp hp
    by_cases h : cameraCompare x y ≤ 0
    · rw [insertStable, if_pos h]
      refine List.pairwise_cons.mpr ⟨?_, hp⟩
      intro b hb
      rcases (cameraCompare_le_zero x y).mp h with hx | hyf
      · intro _; exact hx
      · intro hbback
        rcases List.mem_cons.mp hb with rfl | hbys
        · rw [hbback] at hyf; cases hyf
        · have := hy b hbys hbback
          rw [this] at hyf; cases hyf
    · rw [insertStable, if_neg h]
      refine List.pairwise_cons.mpr ⟨?_, insert_pairwise_rearFirst x ys hys⟩
      intro b hb
      rcases (mem_insertStable cameraCompare x b ys).mp hb with rfl | hbys
      · intro hbback
        rcases (cameraCompare_le_zero b y).not.mp h with hcon
        push_neg at hcon
        rw [hbback] at hcon
        cases hcon.1 rfl
      · exact hy b hbys
  termination_by ys => ys.length

theorem sort_pairwise_rearFirst :
    ∀ l : List CameraDevice, List.Pairwise rearFirst (jsStableSort cameraCompare l)
  | [] => List.Pairwise.nil
  | x :: xs =>
    insert_pairwise_rearFirst x (jsStableSort cameraCompare xs)
      (sort_pairwise_rearFirst xs)

/-- C9: `enumerateCameras` orders every rear-facing device before every
non-rear-facing one while returning exactly the video-input devices (as a
permutation of their `CameraDevice` images), auto-selects a rear-facing
device when one exists and the first device otherwise, and returns an
empty list — not an error — when no video devices exist. -/
theorem enumerateCameras_snd_eq (devices : List MediaDeviceInfo) :
    (enumerateCameras devices).snd
      = (match (enumerateCameras devices).fst.find? (fun camera => camera.isBackCamera) with
        | some backCamera => some backCamera.deviceId
        | none => (enumerateCameras devices).fst.head?.map
            (fun c : CameraDevice => c.deviceId)) := rfl

theorem enumerateCameras_spec (devices : List MediaDeviceInfo) :
    List.Pairwise rearFirst (enumerateCameras devices).fst
    ∧ (enumerateCameras devices).fst.Perm
        ((devices.filter (fun d => d.kind = MediaDeviceKind.videoinput)).map mkCameraDevice)
    ∧ ((∃ c ∈ (enumerateCameras devices).fst, c.isBackCamera = true) →
        ∃ c ∈ (enumerateCameras devices).fst, c.isBackCamera = true
          ∧ (enumerateCameras devices).snd = some c.deviceId)
    ∧ ((∀ c ∈ (enumerateCameras devices).fst, c.isBackCamera = false) →
        (enumerateCameras devices).snd
          = (enumerateCameras devices).fst.head?.map (fun c => c.deviceId))
    ∧ (devices.filter (fun d => d.kind = MediaDeviceKind.videoinput) = [] →
        (enumerateCameras devices).fst = [] ∧ (enumerateCameras devices).snd = none) := by
  refine ⟨sort_pairwise_rearFirst _, perm_jsStableSort _ _, ?_, ?_, ?_⟩
  · intro hex
    cases hfind : (enumerateCameras devices).fst.find? (fun camera => camera.isBackCamera) with
    | none =>
      obtain ⟨c, hc, hcb⟩ := hex
      have := List.find?_eq_none.mp hfind c hc
      rw [hcb] at this
      cases this rfl
    | some backCamera =>
      refine ⟨backCamera, List.mem_of_find?_eq_some hfind, List.find?_some hfind, ?_⟩
      rw [enumerateCameras_snd_eq, hfind]
  · intro hall
    have hfind : (enumerateCameras devices).fst.find? (fun camera => camera.isBackCamera) = none :=
      List.find?_eq_none.mpr (fun c hc => by rw [hall c hc]; simp)
    rw [enumerateCameras_snd_eq, hfind]
  · intro hempty
    have hfst : (enumerateCameras devices).fst = [] := by
      show jsStableSort cameraCompare
        ((devices.filter (fun d => d.kind = MediaDeviceKind.videoinput)).map mkCameraDevice) = []
      rw [hempty]
      rfl
    refine ⟨hfst, ?_⟩
    rw [enumerateCameras_snd_eq, hfst]
    rfl

/-- Witness for C9 on a concrete device list: a front and a back camera;
the back camera is ordered first and auto-selected; and an audio-only
list yields the empty camera list. -/
theorem enumerateCameras_spec_witness :
    (∃ c ∈ (enumerateCameras
        [{ deviceId := "f1", label := "Front Camera", kind := MediaDeviceKind.videoinput },
         { deviceId := "b1", label := "Back Camera", kind := MediaDeviceKind.videoinput }]).fst,
        c.isBackCamera = true
        ∧ (enumerateCameras
            [{ deviceId := "f1", label := "Front Camera", kind := MediaDeviceKind.videoinput },
             { deviceId := "b1", label := "Back Camera", kind := MediaDeviceKind.videoinput }]).snd
          = some c.deviceId)
    ∧ (enumerateCameras
        [{ deviceId := "m1", label := "Mic", kind := MediaDeviceKind.audioinput }]).fst = [] := by
  constructor
  · exact (enumerateCameras_spec
      [{ deviceId := "f1", label := "Front Camera", kind := MediaDeviceKind.videoinput },
       { deviceId := "b1", label := "Back Camera", kind := MediaDeviceKind.videoinput }]).2.2.1
      ⟨{ deviceId := "b1", label := "Back Camera", kind := MediaDeviceKind.videoinput,
          isBackCamera := true }, by decide, by rfl⟩
  · exact ((enumerateCameras_spec
      [{ deviceId := "m1", label := "Mic", kind := MediaDeviceKind.audioinput }]).2.2.2.2
      (by rfl)).1
